import Mathlib

/-!
Verification of the fetch-and-render view model of the Unit-Testing-Tutorial
repository (src/App.tsx and src/RepositoryItem.tsx), shallowly embedded in Lean.

The component keeps three state cells (`isLoading`, `error`, `topRepositories`),
runs one effect on mount that issues a single HTTP request and installs
then/catch/finally handlers, and renders one of three branches: a spinner while
loading, an error message when the stored error string is truthy, and otherwise
the list of repository rows. `RepositoryItem` shows a homepage link only when
`homepageUrl && repositoryUrl && homepageUrl !== repositoryUrl`.
-/

/-- The display-relevant fields of one fetched repository record, as consumed by
`App.tsx` (`repo.id`, `repo.name`, `repo.watchers`, `repo.html_url`,
`repo.homepage`). -/
structure RepositorySummary where
  id : Nat
  name : String
  watchCount : Nat
  repositoryUrl : String
  homepageUrl : String
deriving Repr, DecidableEq

/-- The three `useState` cells of `App`: `isLoading`, `error`,
`topRepositories`. -/
structure AppState where
  isLoading : Bool
  error : String
  topRepositories : List RepositorySummary
deriving Repr, DecidableEq

/-- The initial values passed to `useState`: `true`, `""`, `[]`. -/
def initialAppState : AppState :=
  { isLoading := true, error := "", topRepositories := [] }

/-- The outcome with which the single `axios.get` promise completes: resolution
with a list of items, or rejection with an error whose `message` is a string. -/
inductive FetchOutcome where
  | ok (items : List RepositorySummary)
  | err (message : String)
deriving Repr, DecidableEq

/-- One primitive step performed by the effect body or by the completion
handlers: a call to one of the three state setters, or the issuing of the HTTP
request. -/
inductive AppAction where
  | setIsLoading (b : Bool)
  | setError (m : String)
  | setTopRepositories (items : List RepositorySummary)
  | issueFetch (url : String)
deriving Repr, DecidableEq

/-- Effect of one action on the three state cells; `issueFetch` does not touch
them. -/
def applyAction (s : AppState) : AppAction → AppState
  | .setIsLoading b => { s with isLoading := b }
  | .setError m => { s with error := m }
  | .setTopRepositories items => { s with topRepositories := items }
  | .issueFetch _ => s

/-- Run a sequence of actions left to right. -/
def runActions (s : AppState) (l : List AppAction) : AppState :=
  l.foldl applyAction s

/-- The fixed request target of the single `axios.get` call. -/
def githubSearchUrl : String :=
  "https://api.github.com/search/repositories?q=stars:%3E1&sort=stars"

/-- The `useEffect` body as run once on mount (empty dependency array):
`setIsLoading(true)` followed by the single `axios.get` call. -/
def effectBody : List AppAction :=
  [.setIsLoading true, .issueFetch githubSearchUrl]

/-- The actions performed by the then/catch/finally chain when the promise
completes: `.then` stores the items (or `.catch` stores `err.message`), and
`.finally` clears the loading flag. -/
def completionActions : FetchOutcome → List AppAction
  | .ok items => [.setTopRepositories items, .setIsLoading false]
  | .err m => [.setError m, .setIsLoading false]

/-- All actions the component performs for one initialization whose fetch
completes with outcome `o`. -/
def lifecycleActions (o : FetchOutcome) : List AppAction :=
  effectBody ++ completionActions o

/-- State right after the mount effect has run (request issued, promise
pending). -/
def mountedState : AppState :=
  runActions initialAppState effectBody

/-- State after the completion handlers for outcome `o` have run. -/
def terminalState (o : FetchOutcome) : AppState :=
  runActions mountedState (completionActions o)

/-- The states observable across one initialization with fetch outcome `o`:
before the effect, while the promise is pending, and after completion. -/
def lifecycleStates (o : FetchOutcome) : List AppState :=
  [initialAppState, mountedState, terminalState o]

/-- JavaScript truthiness of a string: truthy exactly when non-empty. This is
how `if (error)` selects the error branch. -/
def strTruthy (s : String) : Bool := s != ""

/-- The three-variant projection of the spec: the branch `App` renders. -/
inductive ViewState where
  | loading
  | error (message : String)
  | ready (items : List RepositorySummary)
deriving Repr, DecidableEq

/-- The three-branch render of `App`: spinner while `isLoading`, error message
when `error` is truthy, otherwise the list of fetched items in order. -/
def renderApp (s : AppState) : ViewState :=
  if s.isLoading then .loading
  else if strTruthy s.error then .error s.error
  else .ready s.topRepositories

/-- The data `RepositoryItem` materializes for one row: the always-present
repository anchor plus an optional homepage link. -/
structure RowDescriptor where
  key : Nat
  name : String
  watchCount : Nat
  repositoryUrl : String
  homepageLink : Option String
deriving Repr, DecidableEq

/-- The guard of the homepage sub-element in `RepositoryItem.tsx`:
`homepageUrl && repositoryUrl && homepageUrl !== repositoryUrl`. -/
def showHomepageLink (homepageUrl repositoryUrl : String) : Bool :=
  strTruthy homepageUrl && strTruthy repositoryUrl && (homepageUrl != repositoryUrl)

/-- The row descriptor `RepositoryItem` renders for one summary, with the
props `App` passes (`key := id`, `watchCount := watchers`, and so on). -/
def repositoryItem (r : RepositorySummary) : RowDescriptor :=
  { key := r.id
    name := r.name
    watchCount := r.watchCount
    repositoryUrl := r.repositoryUrl
    homepageLink :=
      if showHomepageLink r.homepageUrl r.repositoryUrl then some r.homepageUrl
      else none }

/-- The success branch maps each fetched item, in order, to its row. -/
def renderRows (items : List RepositorySummary) : List RowDescriptor :=
  items.map repositoryItem

/-- Whether a fetch was issued by an action. -/
def isFetchCall : AppAction → Bool
  | .issueFetch _ => true
  | _ => false

/-- Number of fetch calls in an action sequence. -/
def fetchCount (l : List AppAction) : Nat :=
  l.countP isFetchCall

/-- A component instance together with its liveness: `mounted := false` once
the instance is torn down. -/
structure ComponentInstance where
  state : AppState
  mounted : Bool
deriving Repr, DecidableEq

/-- A freshly mounted instance whose effect has run. -/
def mountInstance : ComponentInstance :=
  { state := mountedState, mounted := true }

/-- Tearing the instance down. The effect in `App.tsx` returns no cleanup
function, so teardown only flips the liveness flag; nothing unregisters the
pending handlers. -/
def teardown (i : ComponentInstance) : ComponentInstance :=
  { i with mounted := false }

/-- Delivery of the promise's completion to the instance. The handlers in
`App.tsx` consult no liveness guard, so the then/catch/finally chain invokes
the state setters regardless of `mounted`. -/
def deliverCompletion (i : ComponentInstance) (o : FetchOutcome) : ComponentInstance :=
  { i with state := runActions i.state (completionActions o) }

/-- A concrete summary used as a sample input (from the repository's test
fixture). -/
def repoFreeCodeCamp : RepositorySummary :=
  { id := 28457823
    name := "freeCodeCamp"
    watchCount := 323864
    repositoryUrl := "https://github.com/freeCodeCamp/freeCodeCamp"
    homepageUrl := "https://contribute.freecodecamp.org" }

/-- Helper: the cell contents after a completed fetch, by case on the
outcome. -/
theorem terminalState_eq (o : FetchOutcome) :
    terminalState o =
      match o with
      | .ok items => { isLoading := false, error := "", topRepositories := items }
      | .err m => { isLoading := false, error := m, topRepositories := [] } := by
  cases o <;> rfl

/-- Claim C1: whenever the fetch resolves with a finite sequence S, the
terminal projection is Ready with items exactly S in order; an empty sequence
yields Ready with the empty list, and the empty list renders zero row
descriptors. -/
theorem c1_success_identity (S : List RepositorySummary) :
    renderApp (terminalState (FetchOutcome.ok S)) = ViewState.ready S ∧
    renderApp (terminalState (FetchOutcome.ok [])) = ViewState.ready [] ∧
    (renderRows []).length = 0 := by
  refine ⟨rfl, rfl, rfl⟩

/-- Claim C2: for a summary satisfying the data-model invariant that
`repositoryUrl` is present (non-empty), the row descriptor carries the
homepage link exactly when `homepageUrl` is non-empty and differs from
`repositoryUrl`. -/
theorem c2_homepage_iff (r : RepositorySummary) (h : r.repositoryUrl ≠ "") :
    (repositoryItem r).homepageLink.isSome = true ↔
      (r.homepageUrl ≠ "" ∧ r.homepageUrl ≠ r.repositoryUrl) := by
  simp [repositoryItem, showHomepageLink, strTruthy, h]

/-- Witness for C2 at the freeCodeCamp fixture: `repositoryUrl` is non-empty
and the homepage link is present exactly as the rule prescribes. -/
theorem c2_homepage_iff_witness :
    repoFreeCodeCamp.repositoryUrl ≠ "" ∧
      ((repositoryItem repoFreeCodeCamp).homepageLink.isSome = true ↔
        (repoFreeCodeCamp.homepageUrl ≠ "" ∧
          repoFreeCodeCamp.homepageUrl ≠ repoFreeCodeCamp.repositoryUrl)) :=
  ⟨by decide, c2_homepage_iff repoFreeCodeCamp (by decide)⟩

/-- Counterexample to C3 as stated: a failure whose message is the empty
string does not produce the Error projection at all — the terminal projection
is Ready with an empty list. -/
theorem c3_empty_message_not_error :
    renderApp (terminalState (FetchOutcome.err "")) = ViewState.ready [] ∧
    renderApp (terminalState (FetchOutcome.err "")) ≠ ViewState.error "" := by
  refine ⟨rfl, by decide⟩

/-- Claim C3 (amended): for every failure whose message is non-empty, the
terminal projection is Error carrying that exact message verbatim. -/
theorem c3_nonempty_message_error (m : String) (h : m ≠ "") :
    renderApp (terminalState (FetchOutcome.err m)) = ViewState.error m := by
  have e : terminalState (FetchOutcome.err m) =
      { isLoading := false, error := m, topRepositories := [] } := rfl
  rw [e]
  simp [renderApp, strTruthy, h]

/-- Witness for C3 at the spec's example message. -/
theorem c3_nonempty_message_error_witness :
    ("A terrible error occurred :(" : String) ≠ "" ∧
      renderApp (terminalState (FetchOutcome.err "A terrible error occurred :(")) =
        ViewState.error "A terrible error occurred :(" :=
  ⟨by decide, c3_nonempty_message_error _ (by decide)⟩

/-- Claim C4: whatever outcome the injected fetch will eventually deliver,
every state observable before completion (before mount effect, and while the
promise is pending) projects to Loading. -/
theorem c4_loading_before_completion (o : FetchOutcome) :
    ∀ s ∈ (lifecycleStates o).dropLast, renderApp s = ViewState.loading := by
  intro s hs
  simp [lifecycleStates, List.dropLast] at hs
  rcases hs with h | h <;> subst h <;> rfl

/-- Witness for C4: the initial state is among the pre-completion states and
projects to Loading. -/
theorem c4_loading_before_completion_witness :
    initialAppState ∈ (lifecycleStates (FetchOutcome.ok [])).dropLast ∧
      renderApp initialAppState = ViewState.loading :=
  ⟨by decide, c4_loading_before_completion (FetchOutcome.ok []) initialAppState (by decide)⟩

/-- Counterexample to C5 as stated: on one initialization, delivering a first
completion signal (resolution with []) and then a second, different one
(rejection with "boom") applies the second as well — the observable state
moves from Ready [] to Error "boom". -/
theorem c5_second_signal_applied :
    renderApp (terminalState (FetchOutcome.ok [])) = ViewState.ready [] ∧
    renderApp (runActions (terminalState (FetchOutcome.ok []))
        (completionActions (FetchOutcome.err "boom"))) = ViewState.error "boom" ∧
    runActions (terminalState (FetchOutcome.ok []))
        (completionActions (FetchOutcome.err "boom")) ≠
      terminalState (FetchOutcome.ok []) := by
  refine ⟨rfl, rfl, by decide⟩

/-- Claim C5 (amended): the handlers apply every signal they receive, so only
a duplicate delivery of the same completion signal leaves the state unchanged
— running the completion actions of an outcome twice equals running them
once. -/
theorem c5_duplicate_signal_idempotent (s : AppState) (o : FetchOutcome) :
    runActions (runActions s (completionActions o)) (completionActions o) =
      runActions s (completionActions o) := by
  cases o <;> rfl

/-- Claim C6 (the code at the failing input): after teardown, delivering the
late completion still mutates the defunct instance's state cells — the effect
installs no cleanup and the handlers consult no liveness guard. -/
theorem c6_late_signal_mutates_defunct :
    (teardown mountInstance).mounted = false ∧
    (deliverCompletion (teardown mountInstance) (FetchOutcome.ok [repoFreeCodeCamp])).state ≠
      (teardown mountInstance).state := by
  refine ⟨rfl, by decide⟩

/-- Claim C7: one initialization performs exactly one fetch call, whatever the
outcome — the effect body issues the single request and the completion
handlers issue none. -/
theorem c7_exactly_one_fetch (o : FetchOutcome) :
    fetchCount (lifecycleActions o) = 1 := by
  cases o <;> rfl

/-- Claim C8: although the implementation keeps three separate cells, every
state projects to exactly one of the three variants: Loading, Error, or
Ready — never none, never two. -/
theorem c8_exactly_one_variant (s : AppState) :
    (renderApp s = ViewState.loading ∧
      (∀ m, renderApp s ≠ ViewState.error m) ∧
      (∀ l, renderApp s ≠ ViewState.ready l)) ∨
    ((∃ m, renderApp s = ViewState.error m) ∧
      renderApp s ≠ ViewState.loading ∧
      (∀ l, renderApp s ≠ ViewState.ready l)) ∨
    ((∃ l, renderApp s = ViewState.ready l) ∧
      renderApp s ≠ ViewState.loading ∧
      (∀ m, renderApp s ≠ ViewState.error m)) := by
  rcases hv : renderApp s with _ | m | l
  · exact Or.inl ⟨rfl, by simp, by simp⟩
  · exact Or.inr (Or.inl ⟨⟨m, rfl⟩, by simp, by simp⟩)
  · exact Or.inr (Or.inr ⟨⟨l, rfl⟩, by simp, by simp⟩)

/-- Claim C9: when `repositoryUrl` is empty, the row descriptor excludes the
homepage link no matter what `homepageUrl` is — the rendered guard also
requires `repositoryUrl` to be truthy. -/
theorem c9_empty_repository_url_guard (r : RepositorySummary)
    (h : r.repositoryUrl = "") :
    (repositoryItem r).homepageLink = none := by
  simp [repositoryItem, showHomepageLink, strTruthy, h]

/-- Witness for C9: a summary with an empty `repositoryUrl` but a non-empty,
distinct `homepageUrl` still gets no homepage link. -/
theorem c9_empty_repository_url_guard_witness :
    (RepositorySummary.mk 7 "orphan" 3 "" "https://example.org").repositoryUrl = "" ∧
      (repositoryItem (RepositorySummary.mk 7 "orphan" 3 "" "https://example.org")).homepageLink = none :=
  ⟨rfl, c9_empty_repository_url_guard _ rfl⟩

/-- Claim C10: a failure with an empty message is indistinguishable from a
successful empty fetch — the terminal cells coincide and the projection is
Ready with an empty list, not an error indicator. -/
theorem c10_empty_error_message_ready :
    terminalState (FetchOutcome.err "") = terminalState (FetchOutcome.ok []) ∧
    renderApp (terminalState (FetchOutcome.err "")) = ViewState.ready [] := by
  refine ⟨rfl, rfl⟩
